import Mathlib

/-!
Shallow embedding of the download-manager core of the `grabfrom` repository
(file `src/downloader.py`), together with theorems settling the frozen
claims about its specification.

Conventions of the embedding:
* Python floats are modelled as rationals (`ℚ`); all the progress arithmetic
  of the source is exact on the inputs the claims mention.
* Python dicts keyed by task id are modelled as association lists with
  Python-dict get/set semantics (`dictGet`, `dictSet`).
* `threading.Event` is modelled as a `Bool` (true = set / gate open).
* Filesystem, network and the yt-dlp engine are abstracted: the worker
  logic is modelled as pure functions of the outcome reported by the engine.
-/

namespace GrabFrom

/-- `TaskStatus` enumeration (downloader.py lines 26-33). -/
inductive TaskStatus where
  | pending
  | downloading
  | paused
  | completed
  | failed
  | cancelled
deriving DecidableEq, Repr

/-- The `.value` of a `TaskStatus` member. -/
def TaskStatus.value : TaskStatus → String
  | .pending => "pending"
  | .downloading => "downloading"
  | .paused => "paused"
  | .completed => "completed"
  | .failed => "failed"
  | .cancelled => "cancelled"

/-- `TaskStatus(s)` construction from a string; `none` models the
`ValueError` raised on an unknown value. -/
def TaskStatus.fromString : String → Option TaskStatus
  | "pending" => some .pending
  | "downloading" => some .downloading
  | "paused" => some .paused
  | "completed" => some .completed
  | "failed" => some .failed
  | "cancelled" => some .cancelled
  | _ => none

/-- `DownloadProgress` dataclass (lines 36-45). -/
structure DownloadProgress where
  downloaded_bytes : Int := 0
  total_bytes : Int := 0
  speed : ℚ := 0
  eta : Option Int := none
  percent : ℚ := 0
  filename : String := ""
deriving DecidableEq, Repr

/-- `DownloadTask` dataclass (lines 61-85).  Paths are modelled as the
strings they print to. -/
structure DownloadTask where
  task_id : String
  url : String
  title : String
  thumbnail : String := ""
  platform : String := ""
  format_id : String := "best"
  quality_label : String := ""
  resolution : String := ""
  output_format : String := "mp4"
  include_audio : Bool := true
  has_audio : Bool := true
  has_video : Bool := true
  format_ext : String := ""
  history_id : Option Int := none
  audio_path : Option String := none
  output_path : Option String := none
  status : TaskStatus := .pending
  stage : String := "pending"
  progress : DownloadProgress := {}
  error_message : String := ""
  created_at : ℚ := 0
  completed_at : Option ℚ := none
deriving DecidableEq, Repr

/-- `DownloadManager._needs_merge` (lines 178-181). -/
def needs_merge (task : DownloadTask) (ffmpeg_available : Bool) : Bool :=
  if !ffmpeg_available then false
  else task.include_audio && task.has_video && !task.has_audio

/-- `DownloadManager._needs_extract` (lines 183-184). -/
def needs_extract (task : DownloadTask) : Bool :=
  task.output_format == "mp3" || task.output_format == "m4a" ||
    task.output_format == "flac"

/-- The local `download_percent` of `_calculate_overall_percent`
(line 197): `min(max(downloaded_bytes / total_bytes * 100, 0), 100)`. -/
def downloadPercent (downloaded_bytes total_bytes : Int) : ℚ :=
  min (max ((downloaded_bytes : ℚ) / (total_bytes : ℚ) * 100) 0) 100

/-- Python `s.startswith(pre)`. -/
def strStartsWith (s pre : String) : Bool :=
  decide (pre.toList <+: s.toList)

/-- `DownloadManager._calculate_overall_percent` (lines 186-217); the
source's local variable `download_percent` is the helper
`downloadPercent`, written out at each use. -/
def calculate_overall_percent (task : DownloadTask)
    (downloaded_bytes total_bytes : Int) (stage : String)
    (ffmpeg_available : Bool) : ℚ :=
  if total_bytes ≤ 0 then task.progress.percent
  else if needs_extract task then
    if strStartsWith stage "downloading" then
      min (downloadPercent downloaded_bytes total_bytes * (9 / 10)) 90
    else if stage = "extracting_audio" ∨ stage = "processing" then 95
    else downloadPercent downloaded_bytes total_bytes
  else if needs_merge task ffmpeg_available then
    if stage = "downloading_video" then
      min (downloadPercent downloaded_bytes total_bytes * (45 / 100)) 45
    else if stage = "downloading_audio" then
      45 + min (downloadPercent downloaded_bytes total_bytes * (45 / 100)) 45
    else if stage = "merging" then 95
    else min (downloadPercent downloaded_bytes total_bytes) 95
  else downloadPercent downloaded_bytes total_bytes

/-- User-visible message constants used by the worker (strings.py). -/
def Messages.DOWNLOAD_CANCELLED : String := "用户取消下载"

/-- strings.py: message raised when an audio output needs ffmpeg. -/
def Messages.FFMPEG_AUDIO_REQUIRED : String := "需要安装 ffmpeg 才能提取音频"

/-- strings.py: message raised when a merge needs ffmpeg. -/
def Messages.FFMPEG_MERGE_REQUIRED : String := "需要安装 ffmpeg 才能合并音视频"

/-- Python `pat in s` on strings: `pat` occurs as a contiguous substring. -/
def strContains (s pat : String) : Bool :=
  decide (pat.toList <:+: s.toList)

/-- Python `s.lower()`, character by character. -/
def strToLower (s : String) : String :=
  String.mk (s.toList.map Char.toLower)

/-- `DownloadManager._is_format_unavailable` (lines 536-538). -/
def is_format_unavailable (error_msg : String) : Bool :=
  strContains (strToLower error_msg) "requested format is not available"

/-- `DownloadManager._is_http_403` (lines 540-542). -/
def is_http_403 (error_msg : String) : Bool :=
  strContains (strToLower error_msg) "http error 403" ||
    strContains error_msg "403"

/-- `DownloadManager._determine_stage_from_info` (lines 168-176); the two
arguments are `info_dict.get("vcodec")` and `info_dict.get("acodec")`
(`none` models an absent key / Python `None`). -/
def determine_stage_from_info (vcodec acodec : Option String) : String :=
  if vcodec = some "none" ∧ acodec ≠ some "none" then "downloading_audio"
  else if acodec = some "none" ∧ vcodec ≠ some "none" then "downloading_video"
  else "downloading"

/-- One progress payload `d` handed to `progress_hook` by the engine
(lines 669-710): the keys the hook reads.  `none` models an absent key. -/
structure HookDict where
  status : String
  downloaded_bytes : Int := 0
  total_bytes : Option Int := none
  total_bytes_estimate : Int := 0
  speed : Option ℚ := none
  eta : Option Int := none
  filename : String := ""
  vcodec : Option String := none
  acodec : Option String := none
deriving DecidableEq, Repr

/-- `d.get("total_bytes") or d.get("total_bytes_estimate", 0)` (line 682):
`or` falls through when `total_bytes` is absent or zero (falsy). -/
def effectiveTotal (d : HookDict) : Int :=
  match d.total_bytes with
  | some t => if t ≠ 0 then t else d.total_bytes_estimate
  | none => d.total_bytes_estimate

/-- The state mutation `progress_hook` performs on its task (lines 680-710),
for a payload that passed the pause/cancel checkpoints.  The `downloading`
branch updates the progress snapshot and stage, then recomputes the overall
percent; the `finished` branch clamps the percent. -/
def progressHook (ffmpeg_available : Bool) (task : DownloadTask)
    (d : HookDict) : DownloadTask :=
  if d.status = "downloading" then
    let downloaded := d.downloaded_bytes
    let total := effectiveTotal d
    let stage := determine_stage_from_info d.vcodec d.acodec
    let task1 : DownloadTask :=
      { task with
        progress.downloaded_bytes := downloaded
        progress.total_bytes := total
        progress.speed := d.speed.getD 0
        progress.eta := d.eta
        progress.filename := d.filename
        output_path := if d.filename ≠ "" then some d.filename
          else task.output_path
        stage := stage }
    { task1 with
      progress.percent :=
        calculate_overall_percent task1 downloaded total stage
          ffmpeg_available }
  else if d.status = "finished" then
    let task1 : DownloadTask :=
      if needs_merge task ffmpeg_available || needs_extract task then
        { task with stage := "processing"
                    progress.percent := max task.progress.percent 95 }
      else { task with progress.percent := 100 }
    if d.filename ≠ "" then { task1 with output_path := some d.filename }
    else task1
  else task

/-- The percents carried by the notifications fired by `progress_hook`
across a run: one entry per payload, each computed on the task state left
by the previous payloads. -/
def hookRun (ffmpeg_available : Bool) :
    DownloadTask → List HookDict → List ℚ
  | _, [] => []
  | task, d :: ds =>
    let task1 := progressHook ffmpeg_available task d
    task1.progress.percent :: hookRun ffmpeg_available task1 ds

/-- The serialized form of `DownloadProgress.to_dict` (lines 46-58)
restricted to the keys `_restore_task` reads back (the remaining keys —
`downloaded_str`, `total_str`, `speed_str`, `eta_str` — are derived display
strings the restore path ignores). -/
structure ProgressData where
  downloaded_bytes : Int
  total_bytes : Int
  speed : ℚ
  eta : Option Int
  percent : ℚ
  filename : String
deriving DecidableEq, Repr

/-- The serialized form of `DownloadTask.to_dict` (lines 87-111). -/
structure TaskData where
  task_id : String
  history_id : Option Int
  url : String
  title : String
  thumbnail : String
  platform : String
  format_id : String
  quality_label : String
  resolution : String
  output_format : String
  include_audio : Bool
  has_audio : Bool
  has_video : Bool
  format_ext : String
  audio_path : Option String
  output_path : Option String
  status : String
  stage : String
  progress : ProgressData
  error_message : String
  created_at : ℚ
  completed_at : Option ℚ
deriving DecidableEq, Repr

/-- `DownloadProgress.to_dict` (lines 46-58), restore-relevant keys. -/
def DownloadProgress.to_dict (p : DownloadProgress) : ProgressData :=
  { downloaded_bytes := p.downloaded_bytes
    total_bytes := p.total_bytes
    speed := p.speed
    eta := p.eta
    percent := p.percent
    filename := p.filename }

/-- `DownloadTask.to_dict` (lines 87-111). -/
def DownloadTask.to_dict (t : DownloadTask) : TaskData :=
  { task_id := t.task_id
    history_id := t.history_id
    url := t.url
    title := t.title
    thumbnail := t.thumbnail
    platform := t.platform
    format_id := t.format_id
    quality_label := t.quality_label
    resolution := t.resolution
    output_format := t.output_format
    include_audio := t.include_audio
    has_audio := t.has_audio
    has_video := t.has_video
    format_ext := t.format_ext
    audio_path := t.audio_path
    output_path := t.output_path
    status := t.status.value
    stage := t.stage
    progress := t.progress.to_dict
    error_message := t.error_message
    created_at := t.created_at
    completed_at := t.completed_at }

/-- `DownloadManager._serialize_task` (lines 219-225): a live
`downloading`/`pending` task is persisted as `paused`. -/
def serialize_task (task : DownloadTask) : TaskData :=
  let data := task.to_dict
  if task.status = .downloading ∨ task.status = .pending then
    { data with status := TaskStatus.paused.value, stage := "paused" }
  else data

/-- `DownloadManager._restore_task` (lines 227-289) on well-typed data.
`fresh` stands for the fresh `uuid4` id generated when the serialized id is
falsy; the `int(... or 0)` / `float(... or 0)` coercions of the source are
identities on the typed fields modelled here. -/
def restore_task (fresh : String) (data : TaskData) : DownloadTask :=
  let status0 := (TaskStatus.fromString data.status).getD .paused
  let status :=
    if status0 = .downloading ∨ status0 = .pending then TaskStatus.paused
    else status0
  let progress : DownloadProgress :=
    { downloaded_bytes := data.progress.downloaded_bytes
      total_bytes := data.progress.total_bytes
      speed := data.progress.speed
      eta := data.progress.eta
      percent := data.progress.percent
      filename := data.progress.filename }
  let task_id := if data.task_id ≠ "" then data.task_id else fresh
  { task_id := task_id
    history_id := data.history_id
    url := data.url
    title := data.title
    thumbnail := data.thumbnail
    platform := data.platform
    format_id := data.format_id
    quality_label := data.quality_label
    resolution := data.resolution
    output_format := data.output_format
    include_audio := data.include_audio
    has_audio := data.has_audio
    has_video := data.has_video
    format_ext := data.format_ext
    audio_path := data.audio_path
    output_path := data.output_path
    status := status
    stage := data.stage
    progress := progress
    error_message := data.error_message
    created_at := data.created_at
    completed_at := data.completed_at }

/-- One entry of `load_state` (lines 319-325): restore the task and discard
it when its locator is empty (`if not task.url: continue`). -/
def loadEntry (fresh : String) (data : TaskData) : Option DownloadTask :=
  let task := restore_task fresh data
  if task.url = "" then none else some task

/-- `save_state` then `load_state` on one task of the registry. -/
def roundtripTask (fresh : String) (task : DownloadTask) :
    Option DownloadTask :=
  loadEntry fresh (serialize_task task)

/-- Python `dict.get` on a string-keyed dict modelled as an association
list. -/
def dictGet {β : Type} (k : String) : List (String × β) → Option β
  | [] => none
  | (k2, v) :: rest => if k2 = k then some v else dictGet k rest

/-- Python `dict[k] = v`: replace the existing binding or append a new
one. -/
def dictSet {β : Type} (k : String) (v : β) :
    List (String × β) → List (String × β)
  | [] => [(k, v)]
  | (k2, v2) :: rest =>
    if k2 = k then (k, v) :: rest else (k2, v2) :: dictSet k v rest

/-- The mutable maps of `DownloadManager` (lines 124-127) the
pause/resume/cancel entry points touch: `_tasks`, `_pause_events`
(`true` = the event is set, i.e. the gate is open) and `_cancel_flags`. -/
structure ManagerState where
  tasks : List (String × DownloadTask)
  pause_events : List (String × Bool)
  cancel_flags : List (String × Bool)
deriving DecidableEq, Repr

/-- `DownloadManager.pause_task` (lines 805-823).  Returns the boolean
result and the manager state it leaves behind. -/
def pause_task (st : ManagerState) (task_id : String) :
    Bool × ManagerState :=
  match dictGet task_id st.tasks with
  | none => (false, st)
  | some task =>
    if task.status ≠ TaskStatus.downloading then (false, st)
    else
      match dictGet task_id st.pause_events with
      | none => (false, st)
      | some _ =>
        (true,
          { st with
            pause_events := dictSet task_id false st.pause_events
            tasks := dictSet task_id
              { task with status := .paused, stage := TaskStatus.paused.value }
              st.tasks })

/-- `DownloadManager.resume_task` (lines 825-857), up to the external
effects (history record, notification, thread spawn). -/
def resume_task (st : ManagerState) (task_id : String) :
    Bool × ManagerState :=
  match dictGet task_id st.tasks with
  | none => (false, st)
  | some task =>
    if task.status ≠ TaskStatus.paused then (false, st)
    else
      (true,
        { st with
          pause_events := dictSet task_id true st.pause_events
          tasks := dictSet task_id
            { task with status := .downloading,
                        stage := TaskStatus.downloading.value,
                        error_message := "" }
            st.tasks
          cancel_flags := dictSet task_id false st.cancel_flags })

/-- `DownloadManager.cancel_task` (lines 859-880), up to the external
effects (notification, history record). -/
def cancel_task (st : ManagerState) (task_id : String) :
    Bool × ManagerState :=
  match dictGet task_id st.tasks with
  | none => (false, st)
  | some task =>
    if task.status = TaskStatus.completed ∨ task.status = TaskStatus.cancelled
    then (false, st)
    else
      (true,
        { st with
          cancel_flags := dictSet task_id true st.cancel_flags
          pause_events :=
            match dictGet task_id st.pause_events with
            | some _ => dictSet task_id true st.pause_events
            | none => st.pause_events
          tasks := dictSet task_id
            { task with status := .cancelled,
                        stage := TaskStatus.cancelled.value }
            st.tasks })

/-- The format selection and ffmpeg preconditions of
`DownloadManager._build_ydl_opts` (lines 766-803): the value placed in
`opts["format"]`, or the message of the exception raised. -/
def formatSelection (task : DownloadTask) (ffmpeg_available : Bool) :
    Except String String :=
  if task.output_format = "mp3" ∨ task.output_format = "m4a" ∨
      task.output_format = "flac" then
    if !ffmpeg_available then .error Messages.FFMPEG_AUDIO_REQUIRED
    else .ok "bestaudio/best"
  else if task.include_audio then
    if task.has_audio ∧ task.has_video then
      .ok (if task.format_id ≠ "" then task.format_id else "best")
    else if !ffmpeg_available then .error Messages.FFMPEG_MERGE_REQUIRED
    else if task.format_id ≠ "" ∧ task.format_id ≠ "best" then
      .ok (task.format_id ++ "+bestaudio/best")
    else .ok "bestvideo+bestaudio/best"
  else if task.format_id ≠ "" ∧ task.format_id ≠ "best" then
    .ok task.format_id
  else .ok "bestvideo/best"

/-- The task configuration `_retry_with_fallback_format` (lines 560-570)
installs for its single fallback attempt. -/
def fallbackAttemptTask (task : DownloadTask) (ffmpeg_available : Bool) :
    DownloadTask :=
  if task.include_audio then
    if ffmpeg_available then
      { task with format_id := "", has_audio := false, has_video := true }
    else
      { task with format_id := "best", has_audio := true, has_video := true }
  else { task with format_id := "" }

/-- `DownloadManager._retry_with_fallback_format` (lines 544-580).
`attempt_succeeds` abstracts whether the fallback engine invocation (option
build plus download) returns without raising.  Result: the returned boolean
and the task state left behind. -/
def retry_with_fallback_format (task : DownloadTask)
    (ffmpeg_available attempt_succeeds : Bool) : Bool × DownloadTask :=
  if task.output_format = "mp3" ∨ task.output_format = "m4a" ∨
      task.output_format = "flac" then
    (false, task)
  else
    let attempt := fallbackAttemptTask task ffmpeg_available
    if attempt_succeeds then (true, attempt)
    else
      (false,
        { attempt with format_id := task.format_id,
                       has_audio := task.has_audio,
                       has_video := task.has_video })

/-- What a worker attempt leaves behind: the task state, whether the worker
deleted the output file, and whether it notified the history ledger
(`record_finish`). -/
structure WorkerOutcome where
  task : DownloadTask
  output_deleted : Bool
  ledger_notified : Bool
deriving DecidableEq, Repr

/-- The worker path taken when `attempt_download` returns normally
(lines 445-458): cancellation observed here deletes the output file if it
exists; otherwise the task completes at 100 percent.  The optional audio
extraction and fragment sweep are modelled separately
(`extract_audio_invoked`). -/
def workerOnSuccess (task : DownloadTask)
    (cancel_flag output_file_exists : Bool) (now : ℚ) : WorkerOutcome :=
  if cancel_flag then
    { task := { task with status := .cancelled }
      output_deleted := output_file_exists
      ledger_notified := false }
  else
    { task :=
        { task with status := .completed,
                    stage := TaskStatus.completed.value,
                    completed_at := some now,
                    progress.percent := 100 }
      output_deleted := false
      ledger_notified := true }

/-- The worker path taken when `attempt_download` raises a `DownloadError`
(lines 460-498) — in particular the path taken when a transfer checkpoint
raises the cancellation error.  `fallback_succeeds` / `cookie_succeeds`
abstract the outcomes of the two retry helpers.  No branch of this path
deletes the output file. -/
def workerOnDownloadError (task : DownloadTask) (ffmpeg_available : Bool)
    (error_msg : String) (cancel_flag fallback_succeeds cookie_succeeds : Bool)
    (now : ℚ) : WorkerOutcome :=
  let retriedTask :=
    if is_format_unavailable error_msg then
      retry_with_fallback_format task ffmpeg_available fallback_succeeds
    else if is_http_403 error_msg then (cookie_succeeds, task)
    else (false, task)
  let retried := retriedTask.1
  let task := retriedTask.2
  if retried then
    if cancel_flag then
      { task := { task with status := .cancelled }
        output_deleted := false
        ledger_notified := true }
    else
      { task :=
          { task with status := .completed,
                      stage := TaskStatus.completed.value,
                      completed_at := some now,
                      progress.percent := 100 }
        output_deleted := false
        ledger_notified := true }
  else if cancel_flag then
    { task := { task with status := .cancelled,
                          stage := TaskStatus.cancelled.value,
                          error_message := "" }
      output_deleted := false
      ledger_notified := true }
  else
    { task := { task with status := .failed,
                          stage := TaskStatus.failed.value,
                          error_message := error_msg }
      output_deleted := false
      ledger_notified := true }

/-- Whether `_extract_audio` (lines 604-658) reaches its ffmpeg invocation:
its early returns test the `save_audio_on_complete` configuration flag, the
presence and existence of the output file, `task.has_video`, and the
availability of ffmpeg — `task.has_audio` is not consulted. -/
def extract_audio_invoked (save_audio_on_complete : Bool)
    (task : DownloadTask) (output_file_exists ffmpeg_available : Bool) :
    Bool :=
  if !save_audio_on_complete then false
  else if task.output_path.isNone || !output_file_exists then false
  else if !task.has_video then false
  else if !ffmpeg_available then false
  else true

/-! Concrete sample inputs used by witnesses and counterexamples. -/

/-- A task whose selected encoding already carries both streams and whose
output container is `mp4`: neither merge nor extraction is required. -/
def cPlainTask : DownloadTask :=
  { task_id := "t1", url := "u1", title := "plain" }

/-- A task that needs the merge pipeline: `include_audio`, `has_video`, no
native audio stream. -/
def cMergeTask : DownloadTask :=
  { task_id := "t2", url := "u2", title := "merge", has_audio := false }

/-- A task that targets an audio-only output container. -/
def cMp3Task : DownloadTask :=
  { task_id := "t3", url := "u3", title := "audio", output_format := "mp3" }

/-- A transfer payload: 500 of 1000 bytes reported. -/
def c3Event1 : HookDict :=
  { status := "downloading", downloaded_bytes := 500,
    total_bytes := some 1000 }

/-- A later transfer payload whose total-bytes estimate grew to 2000. -/
def c3Event2 : HookDict :=
  { status := "downloading", downloaded_bytes := 600,
    total_bytes := some 2000 }

/-- A later transfer payload consistent with `c3Event1`: same total, more
bytes. -/
def c3Event3 : HookDict :=
  { status := "downloading", downloaded_bytes := 600,
    total_bytes := some 1000 }

/-- A paused task whose stage label is not "paused" (such a task is built
by `load_state` from a state file written before the save-time coercion,
e.g. after a crash mid-run — `_restore_task` coerces the status but keeps
the stored stage). -/
def c4PausedTask : DownloadTask :=
  { task_id := "x4", url := "u4", title := "p", status := .paused,
    stage := "downloading_video" }

/-- `cPlainTask` while a worker is transferring it. -/
def cDownloadingTask : DownloadTask :=
  { cPlainTask with status := .downloading, stage := "downloading" }

/-- An already-completed task. -/
def cCompletedTask : DownloadTask :=
  { cPlainTask with task_id := "t9"
                    status := .completed
                    stage := "completed" }

/-- A registry holding `cDownloadingTask` with an open pause gate, plus
`cCompletedTask`. -/
def cState : ManagerState :=
  { tasks := [("t1", cDownloadingTask), ("t9", cCompletedTask)]
    pause_events := [("t1", true), ("t9", true)]
    cancel_flags := [("t1", false), ("t9", false)] }

/-- A downloading task with a (partial) output file on disk. -/
def c6Task : DownloadTask :=
  { task_id := "c6", url := "u6", title := "c", status := .downloading,
    stage := "downloading", output_path := some "/downloads/v.mp4" }

/-- A video-only task: the caller excluded audio. -/
def c7VideoOnlyTask : DownloadTask :=
  { task_id := "v7", url := "u7", title := "v", include_audio := false,
    format_id := "137" }

/-- A completed merge task: it has video but no native audio stream, and
its output file exists. -/
def c8MergedTask : DownloadTask :=
  { task_id := "m8", url := "u8", title := "m", has_audio := false,
    output_path := some "/downloads/m.mp4" }

/-! Helper lemmas. -/

lemma downloadPercent_nonneg (d t : Int) : 0 ≤ downloadPercent d t :=
  le_min (le_max_right _ _) (by norm_num)

/-- Evaluation rule for `downloadPercent` on concrete in-range inputs. -/
lemma downloadPercent_eval (d t : Int) (x : ℚ)
    (h1 : (d : ℚ) / (t : ℚ) * 100 = x) (h2 : 0 ≤ x) (h3 : x ≤ 100) :
    downloadPercent d t = x := by
  unfold downloadPercent
  rw [h1, max_eq_left h2, min_eq_left h3]

lemma downloadPercent_le_100 (d t : Int) : downloadPercent d t ≤ 100 :=
  min_le_right _ _

lemma downloadPercent_mono (d1 d2 t : Int) (ht : 0 < t) (hd : d1 ≤ d2) :
    downloadPercent d1 t ≤ downloadPercent d2 t := by
  have ht' : (0 : ℚ) < (t : ℚ) := by exact_mod_cast ht
  have hd' : (d1 : ℚ) ≤ (d2 : ℚ) := by exact_mod_cast hd
  unfold downloadPercent
  gcongr

/-- `_calculate_overall_percent` is monotone in the downloaded byte count,
for a fixed positive total, a fixed stage, and tasks agreeing on the
merge/extract requirements. -/
lemma calculate_overall_percent_mono (task1 task2 : DownloadTask)
    (ff : Bool) (stage : String) (d1 d2 t : Int)
    (he : needs_extract task1 = needs_extract task2)
    (hm : needs_merge task1 ff = needs_merge task2 ff)
    (ht : 0 < t) (hd : d1 ≤ d2) :
    calculate_overall_percent task1 d1 t stage ff ≤
      calculate_overall_percent task2 d2 t stage ff := by
  have hdp := downloadPercent_mono d1 d2 t ht hd
  have h0 := downloadPercent_nonneg d1 t
  unfold calculate_overall_percent
  rw [if_neg (not_le.mpr ht), if_neg (not_le.mpr ht), ← he, ← hm]
  split_ifs <;> first
    | exact le_refl _
    | exact hdp
    | gcongr

/-! Theorems settling the claims. -/

/-- C1: the overall-percent model reproduces the spec's weighted examples:
250 of 1000 bytes with neither merge nor extraction gives exactly 25;
merge required at stage "downloading_audio" with transfer fraction 1/2
gives exactly 67.5; extraction required at stage "downloading" with
transfer fraction 1 gives exactly 90, not 100. -/
theorem c1_percent_matches_weighted_examples
    (t1 t2 t3 : DownloadTask) (ff1 ff2 ff3 : Bool) (s1 : String)
    (d2 n2 d3 n3 : Int)
    (h1e : needs_extract t1 = false) (h1m : needs_merge t1 ff1 = false)
    (h2e : needs_extract t2 = false) (h2m : needs_merge t2 ff2 = true)
    (h3e : needs_extract t3 = true)
    (hn2 : 0 < n2) (hd2 : (d2 : ℚ) / (n2 : ℚ) = 1 / 2)
    (hn3 : 0 < n3) (hd3 : (d3 : ℚ) / (n3 : ℚ) = 1) :
    calculate_overall_percent t1 250 1000 s1 ff1 = 25 ∧
    calculate_overall_percent t2 d2 n2 "downloading_audio" ff2 = 135 / 2 ∧
    calculate_overall_percent t3 d3 n3 "downloading" ff3 = 90 := by
  refine ⟨?_, ?_, ?_⟩
  · have hdp : downloadPercent 250 1000 = 25 := by
      unfold downloadPercent; norm_num
    simp [calculate_overall_percent, h1e, h1m, hdp]
  · have hdp : downloadPercent d2 n2 = 50 := by
      unfold downloadPercent; rw [hd2]; norm_num
    rw [calculate_overall_percent, if_neg (not_le.mpr hn2)]
    simp only [h2e, h2m, hdp, Bool.false_eq_true, if_false, if_true]
    rw [show (50 : ℚ) * (45 / 100) = 45 / 2 by norm_num,
      min_eq_left (by norm_num)]
    norm_num
    decide
  · have hdp : downloadPercent d3 n3 = 100 := by
      unfold downloadPercent; rw [hd3]; norm_num
    rw [calculate_overall_percent, if_neg (not_le.mpr hn3)]
    simp only [h3e, hdp, if_true]
    norm_num [strStartsWith]

/-- Witness for C1 at concrete tasks: a plain mp4 task, a merge task, and
an mp3 task. -/
theorem c1_percent_matches_weighted_examples_witness :
    calculate_overall_percent cPlainTask 250 1000 "downloading" false = 25 ∧
    calculate_overall_percent cMergeTask 1 2 "downloading_audio" true
      = 135 / 2 ∧
    calculate_overall_percent cMp3Task 5 5 "downloading" false = 90 :=
  c1_percent_matches_weighted_examples cPlainTask cMergeTask cMp3Task
    false true false "downloading" 1 2 5 5 (by decide) (by decide)
    (by decide) (by decide) (by decide) (by decide) (by norm_num)
    (by decide) (by norm_num)

/-- C2: with a zero or negative reported total, the overall-percent
computation performs no division and returns the prior percent
unchanged. -/
theorem c2_zero_total_keeps_prior_percent (task : DownloadTask)
    (downloaded total : Int) (stage : String) (ff : Bool)
    (h : total ≤ 0) :
    calculate_overall_percent task downloaded total stage ff =
      task.progress.percent := by
  simp [calculate_overall_percent, h]

/-- Witness for C2 at a concrete task and zero total. -/
theorem c2_zero_total_keeps_prior_percent_witness :
    calculate_overall_percent cPlainTask 500 0 "downloading" false =
      cPlainTask.progress.percent :=
  c2_zero_total_keeps_prior_percent cPlainTask 500 0 "downloading" false
    (by decide)

/-- C10: for a strictly positive total the overall percent always lies in
[0, 100], for every task, stage and flag combination, and it does not
depend on the task's prior percent value. -/
theorem c10_percent_bounded (task : DownloadTask) (downloaded total : Int)
    (stage : String) (ff : Bool) (h : 0 < total) :
    0 ≤ calculate_overall_percent task downloaded total stage ff ∧
    calculate_overall_percent task downloaded total stage ff ≤ 100 ∧
    ∀ p : ℚ,
      calculate_overall_percent { task with progress.percent := p }
          downloaded total stage ff =
        calculate_overall_percent task downloaded total stage ff := by
  have h0 := downloadPercent_nonneg downloaded total
  have h1 := downloadPercent_le_100 downloaded total
  have h45 : min (downloadPercent downloaded total * (45 / 100)) 45
      ≤ (45 : ℚ) := min_le_right _ _
  have h45n : (0 : ℚ) ≤ min (downloadPercent downloaded total * (45 / 100)) 45 :=
    le_min (mul_nonneg h0 (by norm_num)) (by norm_num)
  refine ⟨?_, ?_, ?_⟩
  · unfold calculate_overall_percent
    rw [if_neg (not_le.mpr h)]
    split_ifs
    · exact le_min (mul_nonneg h0 (by norm_num)) (by norm_num)
    · norm_num
    · exact h0
    · exact h45n
    · linarith
    · norm_num
    · exact le_min h0 (by norm_num)
    · exact h0
  · unfold calculate_overall_percent
    rw [if_neg (not_le.mpr h)]
    split_ifs
    · exact le_trans (min_le_right _ _) (by norm_num)
    · norm_num
    · exact h1
    · exact le_trans (min_le_right _ _) (by norm_num)
    · linarith
    · norm_num
    · exact le_trans (min_le_right _ _) (by norm_num)
    · exact h1
  · intro p
    unfold calculate_overall_percent
    rw [if_neg (not_le.mpr h), if_neg (not_le.mpr h)]
    rfl

/-- Witness for C10 at a concrete task and positive total. -/
theorem c10_percent_bounded_witness :
    0 ≤ calculate_overall_percent cMergeTask 3 4 "downloading_video" true ∧
    calculate_overall_percent cMergeTask 3 4 "downloading_video" true
      ≤ 100 ∧
    ∀ p : ℚ,
      calculate_overall_percent { cMergeTask with progress.percent := p }
          3 4 "downloading_video" true =
        calculate_overall_percent cMergeTask 3 4 "downloading_video" true :=
  c10_percent_bounded cMergeTask 3 4 "downloading_video" true (by decide)

/-- C3 counterexample: percent regresses between two notifications of one
run when the engine's total-bytes estimate grows (500/1000 reports 50,
then 600/2000 reports 30); the hook never clamps against the prior
value. -/
theorem c3_counterexample_percent_regresses :
    hookRun false cPlainTask [c3Event1, c3Event2] = [50, 30] ∧
    ¬ List.Chain' (· ≤ ·) (hookRun false cPlainTask [c3Event1, c3Event2]) := by
  have d1 : downloadPercent 500 1000 = 50 :=
    downloadPercent_eval 500 1000 50 (by norm_num) (by norm_num) (by norm_num)
  have d2 : downloadPercent 600 2000 = 30 :=
    downloadPercent_eval 600 2000 30 (by norm_num) (by norm_num) (by norm_num)
  have heval : hookRun false cPlainTask [c3Event1, c3Event2] = [50, 30] := by
    simp only [hookRun, progressHook, c3Event1, c3Event2, cPlainTask,
      effectiveTotal, determine_stage_from_info, calculate_overall_percent,
      needs_extract, needs_merge, strStartsWith]
    norm_num [d1, d2]
    decide
  refine ⟨heval, ?_⟩
  rw [heval]
  simp only [List.chain'_cons, List.chain'_singleton, and_true]
  norm_num

/-- C3 (amended): across consecutive transfer notifications of one run
that report a consistent picture — the same positive effective total, the
same stream codecs (hence the same stage), and a non-decreasing downloaded
byte count — the emitted percent never regresses.  (As stated the claim is
false: a change of the reported total estimate, or of the stage
classification, can lower the percent, since the hook never clamps against
the prior value.) -/
theorem c3_amended_no_regress_on_consistent_reports
    (ff : Bool) (task : DownloadTask) (e1 e2 : HookDict)
    (h1 : e1.status = "downloading") (h2 : e2.status = "downloading")
    (hv : e2.vcodec = e1.vcodec) (ha : e2.acodec = e1.acodec)
    (ht : effectiveTotal e2 = effectiveTotal e1)
    (hpos : 0 < effectiveTotal e1)
    (hd : e1.downloaded_bytes ≤ e2.downloaded_bytes) :
    (progressHook ff task e1).progress.percent ≤
      (progressHook ff (progressHook ff task e1) e2).progress.percent := by
  rw [progressHook, if_pos h1]
  rw [progressHook, if_pos h2]
  simp only
  rw [hv, ha, ht]
  exact calculate_overall_percent_mono _ _ ff _ _ _ _ rfl rfl hpos hd

/-- Witness for the amended C3 at concrete consistent payloads. -/
theorem c3_amended_no_regress_on_consistent_reports_witness :
    (progressHook false cPlainTask c3Event1).progress.percent ≤
      (progressHook false (progressHook false cPlainTask c3Event1)
        c3Event3).progress.percent :=
  c3_amended_no_regress_on_consistent_reports false cPlainTask c3Event1
    c3Event3 (by decide) (by decide) (by decide) (by decide) (by decide)
    (by decide) (by decide)

/-- C4 counterexample: a paused task whose stage label is not "paused"
(reachable through `load_state` from a state file holding a `downloading`
status, e.g. written by a crashed run) round-trips to itself: the restored
task is non-terminal yet its stage is not "paused", contradicting the
claim that every originally non-terminal task restores with stage
"paused". -/
theorem c4_counterexample_paused_stage_preserved :
    roundtripTask "fresh" c4PausedTask = some c4PausedTask ∧
    c4PausedTask.status = TaskStatus.paused ∧
    c4PausedTask.stage ≠ "paused" := by
  refine ⟨?_, rfl, by decide⟩
  decide

/-- C4 (amended): for every task with a non-empty identifier and a
non-empty URL, serialize-then-restore yields: for a `pending` or
`downloading` task, the same task with status `paused` and stage "paused";
for a `paused` task, exactly the original task (its stored stage is kept,
which is "paused" whenever the pause API produced it); for a terminal
task, exactly the original task with every field preserved.  (A task with
an empty URL is discarded by `load_state`, and an empty identifier is
replaced by a fresh one.) -/
theorem c4_amended_roundtrip (task : DownloadTask) (fresh : String)
    (hurl : task.url ≠ "") (hid : task.task_id ≠ "") :
    ((task.status = TaskStatus.pending ∨
        task.status = TaskStatus.downloading) →
      roundtripTask fresh task =
        some { task with status := .paused, stage := "paused" }) ∧
    (task.status = TaskStatus.paused →
      roundtripTask fresh task = some task) ∧
    ((task.status = TaskStatus.completed ∨
        task.status = TaskStatus.failed ∨
        task.status = TaskStatus.cancelled) →
      roundtripTask fresh task = some task) := by
  refine ⟨?_, ?_, ?_⟩
  · rintro (hs | hs) <;>
      simp [roundtripTask, loadEntry, restore_task, serialize_task,
        DownloadTask.to_dict, DownloadProgress.to_dict, TaskStatus.fromString,
        TaskStatus.value, hs, hurl, hid]
  · intro hs
    simp [roundtripTask, loadEntry, restore_task, serialize_task,
      DownloadTask.to_dict, DownloadProgress.to_dict, TaskStatus.fromString,
      TaskStatus.value, hs, hurl, hid]
    rw [← hs]
  · rintro (hs | hs | hs) <;>
      (simp [roundtripTask, loadEntry, restore_task, serialize_task,
        DownloadTask.to_dict, DownloadProgress.to_dict, TaskStatus.fromString,
        TaskStatus.value, hs, hurl, hid];
       rw [← hs])

/-- Witness for the amended C4 at a concrete completed task. -/
theorem c4_amended_roundtrip_witness :
    ((cCompletedTask.status = TaskStatus.pending ∨
        cCompletedTask.status = TaskStatus.downloading) →
      roundtripTask "f" cCompletedTask =
        some { cCompletedTask with status := .paused, stage := "paused" }) ∧
    (cCompletedTask.status = TaskStatus.paused →
      roundtripTask "f" cCompletedTask = some cCompletedTask) ∧
    ((cCompletedTask.status = TaskStatus.completed ∨
        cCompletedTask.status = TaskStatus.failed ∨
        cCompletedTask.status = TaskStatus.cancelled) →
      roundtripTask "f" cCompletedTask = some cCompletedTask) :=
  c4_amended_roundtrip cCompletedTask "f" (by decide) (by decide)

lemma dictGet_dictSet_self {β : Type} (k : String) (v : β)
    (l : List (String × β)) : dictGet k (dictSet k v l) = some v := by
  induction l with
  | nil => simp [dictGet, dictSet]
  | cons hd tl ih =>
    obtain ⟨k2, v2⟩ := hd
    by_cases h : k2 = k <;> simp [dictGet, dictSet, h, ih]

/-- C5: `cancel_task` returns true precisely when the id is known and the
task is not already completed or cancelled; in that case it sets the
cancellation flag, force-opens the pause gate (whenever the task has one),
and marks status and stage "cancelled" synchronously in the registry;
otherwise it returns false and leaves the whole registry state
unchanged. -/
theorem c5_cancel_semantics (st : ManagerState) (task_id : String) :
    (dictGet task_id st.tasks = none →
      cancel_task st task_id = (false, st)) ∧
    (∀ task, dictGet task_id st.tasks = some task →
      (task.status = TaskStatus.completed ∨
        task.status = TaskStatus.cancelled) →
      cancel_task st task_id = (false, st)) ∧
    (∀ task, dictGet task_id st.tasks = some task →
      task.status ≠ TaskStatus.completed →
      task.status ≠ TaskStatus.cancelled →
      (cancel_task st task_id).1 = true ∧
      dictGet task_id (cancel_task st task_id).2.tasks =
        some { task with status := .cancelled, stage := "cancelled" } ∧
      dictGet task_id (cancel_task st task_id).2.cancel_flags = some true ∧
      (∀ b, dictGet task_id st.pause_events = some b →
        dictGet task_id (cancel_task st task_id).2.pause_events =
          some true)) := by
  refine ⟨?_, ?_, ?_⟩
  · intro h
    simp [cancel_task, h]
  · intro task h hterm
    simp [cancel_task, h, hterm]
  · intro task h h1 h2
    have hcond : ¬(task.status = TaskStatus.completed ∨
        task.status = TaskStatus.cancelled) := by
      rintro (hc | hc) <;> [exact h1 hc; exact h2 hc]
    refine ⟨?_, ?_, ?_, ?_⟩
    · simp [cancel_task, h, hcond]
    · simp [cancel_task, h, hcond, TaskStatus.value, dictGet_dictSet_self]
    · simp [cancel_task, h, hcond, dictGet_dictSet_self]
    · intro b hb
      simp [cancel_task, h, hcond, hb, dictGet_dictSet_self]

/-- C9: `pause_task` on a task not currently downloading (or an unknown
id) returns false and leaves the registry — tasks, stages, pause gates —
unchanged; `resume_task` on a task not currently paused (or an unknown id)
returns false and leaves everything unchanged. -/
theorem c9_pause_resume_reject_wrong_status (st : ManagerState)
    (task_id : String) :
    (dictGet task_id st.tasks = none →
      pause_task st task_id = (false, st) ∧
      resume_task st task_id = (false, st)) ∧
    (∀ task, dictGet task_id st.tasks = some task →
      task.status ≠ TaskStatus.downloading →
      pause_task st task_id = (false, st)) ∧
    (∀ task, dictGet task_id st.tasks = some task →
      task.status ≠ TaskStatus.paused →
      resume_task st task_id = (false, st)) := by
  refine ⟨?_, ?_, ?_⟩
  · intro h
    constructor <;> simp [pause_task, resume_task, h]
  · intro task h hs
    simp [pause_task, h, hs]
  · intro task h hs
    simp [resume_task, h, hs]

/-- Bool-level description of the `_extract_audio` guard chain. -/
lemma extract_audio_invoked_eq (save : Bool) (task : DownloadTask)
    (e f : Bool) :
    extract_audio_invoked save task e f =
      (save && (task.output_path.isSome && e) && task.has_video && f) := by
  cases save <;> cases e <;> cases f <;>
    cases htv : task.has_video <;> cases hop : task.output_path <;>
      simp [extract_audio_invoked, htv, hop]

/-- C6 counterexample: a cancellation raised through a transfer checkpoint
surfaces as a `DownloadError` carrying the cancellation message; on that
path the worker marks the task cancelled and notifies the ledger but never
deletes the output file, even though one is present — the deletion the
claim requires only happens when the engine returns normally. -/
theorem c6_counterexample_no_delete_on_checkpoint_cancel :
    (workerOnDownloadError c6Task true Messages.DOWNLOAD_CANCELLED true
        false false 0).task.status = TaskStatus.cancelled ∧
    (workerOnDownloadError c6Task true Messages.DOWNLOAD_CANCELLED true
        false false 0).ledger_notified = true ∧
    c6Task.output_path.isSome = true ∧
    (workerOnDownloadError c6Task true Messages.DOWNLOAD_CANCELLED true
        false false 0).output_deleted = false := by
  refine ⟨?_, ?_, rfl, ?_⟩ <;> decide

/-- C6 (amended): when cancellation is raised through a transfer
checkpoint (a `DownloadError` whose message matches neither retry
pattern, observed with the cancellation flag set), the worker marks the
task cancelled with stage "cancelled" and a cleared error message and
notifies the ledger, but does not delete the output file; the output file
is deleted on cancellation only along the path where the engine returned
normally. -/
theorem c6_amended_checkpoint_cancellation (task : DownloadTask)
    (ff fb ck : Bool) (now : ℚ) (msg : String)
    (hfmt : is_format_unavailable msg = false)
    (h403 : is_http_403 msg = false) :
    workerOnDownloadError task ff msg true fb ck now =
      { task := { task with status := .cancelled
                            stage := "cancelled"
                            error_message := "" }
        output_deleted := false
        ledger_notified := true } ∧
    (∀ output_file_exists : Bool, ∀ now2 : ℚ,
      (workerOnSuccess task true output_file_exists now2).task.status =
        TaskStatus.cancelled ∧
      (workerOnSuccess task true output_file_exists now2).output_deleted =
        output_file_exists) := by
  constructor
  · simp [workerOnDownloadError, hfmt, h403, TaskStatus.value]
  · intro e now2
    constructor <;> simp [workerOnSuccess]

/-- Witness for the amended C6 at the concrete cancellation message. -/
theorem c6_amended_checkpoint_cancellation_witness :
    workerOnDownloadError c6Task true Messages.DOWNLOAD_CANCELLED true
        false false 0 =
      { task := { c6Task with status := .cancelled
                              stage := "cancelled"
                              error_message := "" }
        output_deleted := false
        ledger_notified := true } ∧
    (∀ output_file_exists : Bool, ∀ now2 : ℚ,
      (workerOnSuccess c6Task true output_file_exists now2).task.status =
        TaskStatus.cancelled ∧
      (workerOnSuccess c6Task true output_file_exists now2).output_deleted =
        output_file_exists) :=
  c6_amended_checkpoint_cancellation c6Task true false false 0
    Messages.DOWNLOAD_CANCELLED (by decide) (by decide)

/-- C7 counterexample: for a video-only task (audio excluded by the
caller) with the merge tool available, the fallback attempt requests the
best video-only stream, not best-video plus best-audio as the claim states
for every non-audio-container task. -/
theorem c7_counterexample_video_only_fallback :
    c7VideoOnlyTask.output_format = "mp4" ∧
    formatSelection (fallbackAttemptTask c7VideoOnlyTask true) true =
      Except.ok "bestvideo/best" ∧
    (Except.ok "bestvideo/best" : Except String String) ≠
      Except.ok "bestvideo+bestaudio/best" := by
  refine ⟨rfl, rfl, by simp⟩

/-- C7 (amended): no fallback is attempted for an audio-only output
container; otherwise exactly one attempt is made, whose relaxed selection
is best-video plus best-audio when the task includes audio and a merge
tool is available, the single best combined stream when it includes audio
without a merge tool, and the best video-only stream when the caller
excluded audio; if the attempt fails the original selection (`format_id`,
`has_audio`, `has_video`) is restored exactly. -/
theorem c7_amended_fallback_policy (task : DownloadTask) (ff sc : Bool) :
    ((task.output_format = "mp3" ∨ task.output_format = "m4a" ∨
        task.output_format = "flac") →
      retry_with_fallback_format task ff sc = (false, task)) ∧
    (¬(task.output_format = "mp3" ∨ task.output_format = "m4a" ∨
        task.output_format = "flac") →
      (retry_with_fallback_format task ff sc).1 = sc ∧
      (sc = true → (retry_with_fallback_format task ff sc).2 =
        fallbackAttemptTask task ff)) ∧
    (retry_with_fallback_format task ff false).2 = task ∧
    (¬(task.output_format = "mp3" ∨ task.output_format = "m4a" ∨
        task.output_format = "flac") →
      task.include_audio = true →
      formatSelection (fallbackAttemptTask task ff) ff =
        Except.ok (if ff then "bestvideo+bestaudio/best" else "best")) ∧
    (¬(task.output_format = "mp3" ∨ task.output_format = "m4a" ∨
        task.output_format = "flac") →
      task.include_audio = false →
      formatSelection (fallbackAttemptTask task ff) ff =
        Except.ok "bestvideo/best") := by
  refine ⟨?_, ?_, ?_, ?_, ?_⟩
  · intro h
    simp [retry_with_fallback_format, h]
  · intro h
    constructor
    · cases sc <;> simp [retry_with_fallback_format, h]
    · intro hsc
      subst hsc
      simp [retry_with_fallback_format, h]
  · unfold retry_with_fallback_format fallbackAttemptTask
    split_ifs
    all_goals first
      | rfl
      | (exfalso; assumption)
  · intro h hinc
    cases ff <;> simp [fallbackAttemptTask, formatSelection, h, hinc]
  · intro h hinc
    simp [fallbackAttemptTask, formatSelection, h, hinc]

/-- C8 counterexample: a completed merge task has video but no native
audio stream, yet with the sidecar configuration on, its output present
and ffmpeg available, the extraction pass is invoked — `_extract_audio`
never consults `has_audio`, contradicting the claim that extraction is
never invoked for a task lacking either stream. -/
theorem c8_counterexample_extract_without_audio_stream :
    extract_audio_invoked true c8MergedTask true true = true ∧
    c8MergedTask.has_audio = false ∧
    c8MergedTask.has_video = true := by
  refine ⟨by decide, rfl, rfl⟩

/-- C8 (amended): a successful run marks the task completed with percent
100 and stage "completed"; the audio-sidecar extraction pass is invoked
only if the configuration requests it, the output file is present,
ffmpeg is available and the task has a video stream — `has_audio` is not
consulted, so extraction is never invoked for a task lacking video but
can be invoked for a task lacking a native audio stream. -/
theorem c8_amended_success_and_extract_guard (task : DownloadTask)
    (save output_file_exists ffmpeg_available : Bool) (now : ℚ) :
    ((workerOnSuccess task false output_file_exists now).task.status =
        TaskStatus.completed ∧
      (workerOnSuccess task false output_file_exists now).task.progress.percent
        = 100 ∧
      (workerOnSuccess task false output_file_exists now).task.stage =
        "completed") ∧
    (extract_audio_invoked save task output_file_exists ffmpeg_available =
        true →
      save = true ∧ task.output_path.isSome = true ∧
      output_file_exists = true ∧ task.has_video = true ∧
      ffmpeg_available = true) ∧
    (task.has_video = false →
      extract_audio_invoked save task output_file_exists ffmpeg_available =
        false) := by
  refine ⟨?_, ?_, ?_⟩
  · refine ⟨?_, ?_, ?_⟩ <;> simp [workerOnSuccess, TaskStatus.value]
  · intro h
    rw [extract_audio_invoked_eq] at h
    simp only [Bool.and_eq_true] at h
    exact ⟨h.1.1.1, h.1.1.2.1, h.1.1.2.2, h.1.2, h.2⟩
  · intro h
    rw [extract_audio_invoked_eq, h]
    simp

end GrabFrom
